import Mathlib

/-
  Shallow embedding of `src/models/transformer_model.py` (eICU length-of-stay
  transformer model) and proofs about it.

  Conventions of the embedding:
  * Tensors of rationals stand for the float tensors of the backend; the
    transcendental primitives of the backend (exp, sin, cos, log) are passed in
    as abstract functions `expf sinf cosf : ℚ → ℚ`, so theorems hold for any
    realisation of them.
  * A float value that can be -inf (the causal mask entries) is a `WithBot ℚ`,
    with `⊥` standing for -inf; addition on `WithBot ℚ` matches the backend
    convention `x + (-inf) = -inf`, and `expExt` below matches `exp (-inf) = 0`.
  * Shape-level semantics of the fallible tensor operations (broadcasting,
    `repeat_interleave`, `view`) are `Except String` valued functions; an
    `Except.error` models the backend raising a runtime error.
-/

/-! ## PositionalEncoding (`transformer_model.py` lines 14-30) -/

/-- Default `max_len=14*24` of `PositionalEncoding.__init__`. -/
def maxLen : ℕ := 14 * 24

/-- `div_term[i] = exp((2*i) * (-log(10000.0) / d_model))`: the i-th entry of
`torch.exp(torch.arange(0, d_model, 2).float() * (-math.log(10000.0) / d_model))`,
with the backend primitives `exp` and `log(10000.0)` abstracted as `expf` and `L`. -/
def div_term (expf : ℚ → ℚ) (L : ℚ) (d_model : ℕ) (i : ℕ) : ℚ :=
  expf ((2 * i : ℚ) * (-L / (d_model : ℚ)))

/-- Entry `pe[pos, c]` of the positional table before the final permute:
the slice assignments `pe[:, 0::2] = sin(position * div_term)` and
`pe[:, 1::2] = cos(position * div_term)` put `sin(pos * div_term[c/2])` in even
channel `c` and `cos(pos * div_term[c/2])` in odd channel `c`. -/
def pe_entry (sinf cosf expf : ℚ → ℚ) (L : ℚ) (d_model : ℕ) (pos c : ℕ) : ℚ :=
  if c % 2 = 0 then sinf ((pos : ℚ) * div_term expf L d_model (c / 2))
  else cosf ((pos : ℚ) * div_term expf L d_model (c / 2))

/-- Number of indices selected by the python slice `start::step` on an axis of
length `n`, i.e. the length of `range(start, n, step)`. -/
def slice_count (start step n : ℕ) : ℕ :=
  if n ≤ start then 0 else (n - start + (step - 1)) / step

/-- Slice assignment (`setitem`) broadcasting of one dimension: the
right-hand-side width must equal the target slice width or be 1 (a width-1
right-hand side is broadcast to the target width, including width 0);
otherwise the backend raises a shape error. -/
def setitem_bcast_ok (target rhs : ℕ) : Bool :=
  (target == rhs) || (rhs == 1)

/-- Shape check of `PositionalEncoding.__init__`: both slice assignments
`pe[:, 0::2] = torch.sin(position * div_term)` and
`pe[:, 1::2] = torch.cos(position * div_term)` assign a right-hand side of
width `len(div_term) = len(range(0, d_model, 2))` to slices of widths
`len(range(0, d_model, 2))` and `len(range(1, d_model, 2))` respectively;
each assignment succeeds iff the right-hand-side width broadcasts to the
target slice width, and construction fails iff one of them does not. -/
def posenc_init_ok (d_model : ℕ) : Bool :=
  setitem_bcast_ok (slice_count 0 2 d_model) (slice_count 0 2 d_model) &&
  setitem_bcast_ok (slice_count 1 2 d_model) (slice_count 0 2 d_model)

/-- Value-level `PositionalEncoding.forward`: `X + self.pe[:, :, :X.size(2)]`.
After the permute in `__init__`, `pe` is indexed `[channel][position]`, so the
entry added at batch `b`, channel `c`, time `t` is `pe_entry ... t c`,
independent of `b` (the broadcast over the batch dimension). -/
def posenc_forward (sinf cosf expf : ℚ → ℚ) (L : ℚ) (d_model : ℕ)
    (X : ℕ → ℕ → ℕ → ℚ) (b c t : ℕ) : ℚ :=
  X b c t + pe_entry sinf cosf expf L d_model t c

/-! ## Causal mask and attention (`TransformerEncoder`, lines 33-57) -/

/-- Entry `(i, j)` of `torch.triu(torch.ones(size, size)) == 1`:
true on the upper triangle `i ≤ j`. -/
def triu_one (_size i j : ℕ) : Bool := decide (i ≤ j)

/-- Entry `(i, j)` of the transposed boolean mask
`(torch.triu(torch.ones(size, size)) == 1).transpose(0, 1)`: true iff `j ≤ i`. -/
def causal_mask_bool (size i j : ℕ) : Bool := triu_one size j i

/-- Entry `(i, j)` of `TransformerEncoder._causal_mask(size)`: the boolean mask
as float, filled with `-inf` where the boolean mask is false and `0.0` where it
is true (`masked_fill(mask == 0, -inf).masked_fill(mask == 1, 0.0)`). -/
def causal_mask (size i j : ℕ) : WithBot ℚ :=
  if causal_mask_bool size i j then ((0 : ℚ) : WithBot ℚ) else (⊥ : WithBot ℚ)

/-- The backend exponential extended to -inf: `exp(-inf) = 0`. -/
def expExt (expf : ℚ → ℚ) (v : WithBot ℚ) : ℚ :=
  WithBot.recBotCoe 0 expf v

/-- Softmax attention weight that query position `i` assigns to key position
`j` inside one attention head of `nn.TransformerEncoderLayer`, for an arbitrary
row of pre-mask scores `score : ℕ → ℚ`: the additive causal mask is added to
the scores and the result is exponentiated and normalised over the `size` key
positions. -/
def attn_weight (expf : ℚ → ℚ) (size : ℕ) (score : ℕ → ℚ) (i j : ℕ) : ℚ :=
  expExt expf (((score j : ℚ) : WithBot ℚ) + causal_mask size i j) /
    ∑ k ∈ Finset.range size, expExt expf (((score k : ℚ) : WithBot ℚ) + causal_mask size i k)

/-! ## Output transform (`Transformer.forward`, lines 159-164, and
`self.hardtanh = nn.Hardtanh(min_val=1/48, max_val=100)`, line 91) -/

/-- `nn.Hardtanh(min_val=1/48, max_val=100)` applied elementwise: values above
100 are set to 100, values below 1/48 are set to 1/48, others pass through. -/
def hardtanh (x : ℚ) : ℚ :=
  if 100 < x then 100 else if x < 1 / 48 then 1 / 48 else x

/-- The output transform of `Transformer.forward`: clamp the raw per-timestep
scalar directly when `self.no_exp`, otherwise exponentiate first and clamp
(`hardtanh(exp(raw))`), with the backend exponential abstracted as `expf`. -/
def output_transform (no_exp : Bool) (expf : ℚ → ℚ) (raw : ℚ) : ℚ :=
  if no_exp then hardtanh raw else hardtanh (expf raw)

/-! ## Shape-level semantics of the fallible tensor operations used by
`Transformer.forward` (lines 136-164) -/

/-- Broadcasting of one dimension pair: two sizes are compatible iff they are
equal or one of them is 1; otherwise the backend raises a size-mismatch error. -/
def broadcastDim (a b : ℕ) : Except String ℕ :=
  if a = b then Except.ok a
  else if b = 1 then Except.ok a
  else if a = 1 then Except.ok b
  else Except.error "The size of tensor a must match the size of tensor b"

/-- Time dimension of `X + self.pe[:, :, :X.size(2)]` in
`PositionalEncoding.forward`: the python slice `:T` clamps to the table
capacity, giving `min T maxLen` columns, which must then broadcast against the
`T` columns of `X`. -/
def posenc_add_time (T : ℕ) : Except String ℕ :=
  broadcastDim T (min T maxLen)

/-- Row count of `t.repeat_interleave(repeats, dim=0)` on a tensor of `rows`
rows: the backend rejects a negative repeat count, otherwise every row is
repeated `repeats` times. -/
def repeat_interleave_rows (rows : ℕ) (repeats : ℤ) : Except String ℤ :=
  if repeats < 0 then Except.error "repeats can not be negative"
  else Except.ok ((rows : ℤ) * repeats)

/-- Second dimension of `t.view(d0, -1)` on a tensor of `total` elements: the
inferred dimension requires a positive known dimension dividing the element
count; with `d0 ≤ 0` (in particular on a 0-element tensor, where -1 is
ambiguous) or a non-dividing `d0` the backend raises a reshape error. -/
def view_infer_last (total d0 : ℤ) : Except String ℤ :=
  if 0 < d0 ∧ total % d0 = 0 then Except.ok (total / d0)
  else Except.error "cannot reshape tensor: invalid or ambiguous shape"

/-- Shape of `t.view(d0, d1)` on a tensor of `total` elements: both explicit
dimensions must be non-negative and their product must equal the element
count. -/
def view_two (total d0 d1 : ℤ) : Except String (ℤ × ℤ) :=
  if 0 ≤ d0 ∧ 0 ≤ d1 ∧ d0 * d1 = total then Except.ok (d0, d1)
  else Except.error "shape is invalid for input of size"

/-- `true` iff the fallible computation succeeded. -/
def exOk {α : Type} : Except String α → Bool
  | Except.ok _ => true
  | Except.error _ => false

/-- Shape-level semantics of `Transformer.forward` on an input batch
`X : B × (2F+2) × T`, `diagnoses : B × D`, `flat : B × no_flat_features`,
returning the shape of `predictions` or the first backend error raised.
Steps in source order:
1. `self.transformer(X, T)`: width-1 convolution `2F+2 → d_model` and the
   positional add (whose time-dimension broadcast can fail), then the
   shape-preserving encoder stack with the `T × T` causal mask —
   `B × d_model × T`;
2. `relu`/dropout (shape preserving) — `X_final : B × d_model × T`;
3. `diagnosis_encoder` (+ batchnorm, relu, dropout) — `B × diagnosis_size`;
4. `flat.repeat_interleave(T - 5, dim=0)` and
   `diagnoses_enc.repeat_interleave(T - 5, dim=0)`;
5. `X_final[:, :, 5:]` (python slice, clamped length `max (T - 5) 0`),
   permute/contiguous, then `.view(B * (T - 5), -1)`;
6. `cat(..., dim=1)` requiring equal row counts, `self.point` requiring the
   concatenated width to match `d_model + diagnosis_size + no_flat_features`;
7. `self.point_final` — `(B * (T - 5)) × 1` — and `.view(B, T - 5)`;
8. elementwise `exp`/`hardtanh` (shape preserving). -/
def transformer_forward_shape (B F T d_model D diagnosis_size no_flat_features
    last_linear_size : ℕ) : Except String (ℕ × ℕ) := do
  let _ := F; let _ := D; let _ := last_linear_size
  let _Tpos ← posenc_add_time T
  let r1 ← repeat_interleave_rows B ((T : ℤ) - 5)
  let r2 ← repeat_interleave_rows B ((T : ℤ) - 5)
  let width3 ← view_infer_last ((B : ℤ) * (d_model : ℤ) * (max ((T : ℤ) - 5) 0))
    ((B : ℤ) * ((T : ℤ) - 5))
  let rows := (B : ℤ) * ((T : ℤ) - 5)
  if r1 = rows ∧ r2 = rows then pure ()
    else throw "Sizes of tensors must match except in dimension 1"
  if (no_flat_features : ℤ) + (diagnosis_size : ℤ) + width3
      = (d_model : ℤ) + (diagnosis_size : ℤ) + (no_flat_features : ℤ) then pure ()
    else throw "mat1 and mat2 shapes cannot be multiplied"
  let _final ← view_two (rows * 1) (B : ℤ) ((T : ℤ) - 5)
  pure (B, T - 5)

/-! ## Batch-normalization variant selection (`Transformer.__init__`,
lines 88 and 110-128) -/

/-- The module bound to a fusion-head normalization stage: the custom
`MyBatchNorm1d` (with its momentum), the standard `nn.BatchNorm1d`, or the
pass-through `EmptyModule`. -/
inductive BNChoice : Type
  | MyBatchNorm1d (momentum : ℚ) : BNChoice
  | BatchNorm1d : BNChoice
  | EmptyModule : BNChoice
deriving DecidableEq

/-- `self.momentum = 0.01 if self.batchnorm == 'low_momentum' else 0.1`. -/
def bn_momentum (batchnorm : String) : ℚ :=
  if batchnorm = "low_momentum" then 1 / 100 else 1 / 10

/-- The module bound to `self.bn_diagnosis_encoder`: `MyBatchNorm1d` for
`'mybatchnorm'` and `'low_momentum'`, `nn.BatchNorm1d` for `'default'`, and
the pass-through `EmptyModule` for every other string. -/
def bn_diagnosis_encoder (batchnorm : String) : BNChoice :=
  if batchnorm = "mybatchnorm" ∨ batchnorm = "low_momentum" then
    BNChoice.MyBatchNorm1d (bn_momentum batchnorm)
  else if batchnorm = "default" then BNChoice.BatchNorm1d
  else BNChoice.EmptyModule

/-- The module bound to `self.bn_point_last`: `MyBatchNorm1d` for
`'mybatchnorm'`, `'pointonly'` and `'low_momentum'`, `nn.BatchNorm1d` for
`'default'`, and the pass-through `EmptyModule` for every other string. -/
def bn_point_last (batchnorm : String) : BNChoice :=
  if batchnorm = "mybatchnorm" ∨ batchnorm = "pointonly" ∨ batchnorm = "low_momentum" then
    BNChoice.MyBatchNorm1d (bn_momentum batchnorm)
  else if batchnorm = "default" then BNChoice.BatchNorm1d
  else BNChoice.EmptyModule

/-! ## Loss dispatch (`Transformer.loss`, lines 166-172) and the masked loss
metrics of `models/tpc_model.py` -/

/-- `Transformer.loss` dispatch on `loss_type`: the `if`/`elif` chain assigns
`loss` only for `'msle'` and `'mse'` (here abstracted by the values `msle_val`
and `mse_val` computed by the respective metric modules); for any other string
`return loss` raises an unbound-local error, modelled as `Except.error`. -/
def transformer_loss (msle_val mse_val : ℚ) (loss_type : String) : Except String ℚ :=
  if loss_type = "msle" then Except.ok msle_val
  else if loss_type = "mse" then Except.ok mse_val
  else Except.error "local variable referenced before assignment"

/-- Modelled from the spec: the shared masked reduction of `MSLELoss` and
`MSELoss` from `models/tpc_model.py`, whose bodies are not part of the given
sources. Per spec section 4.5: an element at batch row `b`, time `t`
contributes the per-element error `err (y_hat b t) (y b t)` only where the
validity mask is true; with `sum_losses = true` the masked errors are summed
over the whole batch and divided by the number of valid elements; with
`sum_losses = false` each sequence's masked errors are averaged over that
sequence's valid length `lens b`, and those per-sequence means are averaged
over the batch. -/
def masked_loss (err : ℚ → ℚ → ℚ) (y_hat y : ℕ → ℕ → ℚ) (mask : ℕ → ℕ → Bool)
    (lens : ℕ → ℕ) (B T : ℕ) (sum_losses : Bool) : ℚ :=
  if sum_losses then
    (∑ b ∈ Finset.range B, ∑ t ∈ Finset.range T,
        if mask b t then err (y_hat b t) (y b t) else 0) /
      (∑ b ∈ Finset.range B, ∑ t ∈ Finset.range T, if mask b t then (1 : ℚ) else 0)
  else
    (∑ b ∈ Finset.range B,
        (∑ t ∈ Finset.range T, if mask b t then err (y_hat b t) (y b t) else 0)
          / (lens b : ℚ)) / (B : ℚ)

/-- The two-sequence batch of claim C4: valid lengths 2 and 10. -/
def lens_two_ten : ℕ → ℕ := fun b => if b = 0 then 2 else 10

/-- Validity mask matching `lens_two_ten`: timestep `t` of sequence `b` is
real iff `t < lens_two_ten b`. -/
def mask_two_ten : ℕ → ℕ → Bool := fun b t => decide (t < lens_two_ten b)

/-! ## Theorems for the claims -/

/-- Claim C1: for every size `T ≥ 1` the causal mask entry at query row `i`,
key column `j` is `0` when `j ≤ i` and `-inf` when `j > i`; consequently, for
any attention layer (any pre-mask score row and any backend exponential), the
attention probability mass a query position `i` assigns to a key position
`j > i` is exactly `0`. -/
theorem claim_C1 (T i j : ℕ) (_hT : 1 ≤ T) (_hi : i < T) (_hj : j < T) :
    causal_mask T i j = (if j ≤ i then ((0 : ℚ) : WithBot ℚ) else ⊥) ∧
    (i < j → ∀ (expf : ℚ → ℚ) (score : ℕ → ℚ), attn_weight expf T score i j = 0) := by
  constructor
  · simp [causal_mask, causal_mask_bool, triu_one]
  · intro hij expf score
    have hmask : causal_mask T i j = ⊥ := by
      simp [causal_mask, causal_mask_bool, triu_one, Nat.not_le.mpr hij]
    rw [attn_weight, hmask]
    simp [expExt]

/-- Witness for C1 at `T = 3`, `i = 0`, `j = 1`, identity exponential,
all-zero scores. -/
theorem claim_C1_witness :
    (1 : ℕ) ≤ 3 ∧ (0 : ℕ) < 1 ∧
    attn_weight (fun x => x) 3 (fun _ => (0 : ℚ)) 0 1 = 0 :=
  ⟨by decide, by decide,
    (claim_C1 3 0 1 (by decide) (by decide) (by decide)).2 (by decide)
      (fun x => x) (fun _ => (0 : ℚ))⟩

/-- Claim C2: the output transform clamps the raw value directly to
`[1/48, 100]` when `no_exp` is set and clamps the exponentiated value to the
same interval otherwise; in both modes every output lies in `[1/48, 100]`, and
the clamp is a hard floor/ceiling: inputs below `1/48` map to `1/48`, inputs
above `100` map to `100`, inputs inside the interval pass through unchanged. -/
theorem claim_C2 (no_exp : Bool) (expf : ℚ → ℚ) (raw : ℚ) :
    (no_exp = true → output_transform no_exp expf raw = hardtanh raw) ∧
    (no_exp = false → output_transform no_exp expf raw = hardtanh (expf raw)) ∧
    1 / 48 ≤ output_transform no_exp expf raw ∧
    output_transform no_exp expf raw ≤ 100 ∧
    (∀ x : ℚ, x < 1 / 48 → hardtanh x = 1 / 48) ∧
    (∀ x : ℚ, 100 < x → hardtanh x = 100) ∧
    (∀ x : ℚ, 1 / 48 ≤ x → x ≤ 100 → hardtanh x = x) := by
  have hbounds : ∀ x : ℚ, 1 / 48 ≤ hardtanh x ∧ hardtanh x ≤ 100 := by
    intro x
    unfold hardtanh
    split
    · constructor <;> norm_num
    · split
      · constructor <;> norm_num
      · constructor <;> linarith
  refine ⟨?_, ?_, ?_, ?_, ?_, ?_, ?_⟩
  · intro h; simp [output_transform, h]
  · intro h; simp [output_transform, h]
  · unfold output_transform
    split
    · exact (hbounds raw).1
    · exact (hbounds (expf raw)).1
  · unfold output_transform
    split
    · exact (hbounds raw).2
    · exact (hbounds (expf raw)).2
  · intro x hx
    unfold hardtanh
    rw [if_neg (by linarith), if_pos hx]
  · intro x hx
    unfold hardtanh
    rw [if_pos hx]
  · intro x h1 h2
    unfold hardtanh
    rw [if_neg (by linarith), if_neg (by linarith)]

/-- Witness for C2 at `no_exp = true`, identity exponential, `raw = 200`:
the transform clamps to the hard ceiling and stays in bounds. -/
theorem claim_C2_witness :
    output_transform true (fun x => x) 200 = hardtanh 200 ∧
    1 / 48 ≤ output_transform true (fun x => x) 200 ∧
    output_transform true (fun x => x) 200 ≤ 100 :=
  ⟨(claim_C2 true (fun x => x) 200).1 rfl,
    (claim_C2 true (fun x => x) 200).2.2.1,
    (claim_C2 true (fun x => x) 200).2.2.2.1⟩

/-- Plumbing: bind on a successful `Except` computation. -/
theorem except_bind_ok {α β : Type} (a : α) (f : α → Except String β) :
    (Except.ok a >>= f : Except String β) = f a := rfl

/-- Plumbing: bind on a failed `Except` computation propagates the error. -/
theorem except_bind_error {α β : Type} (e : String) (f : α → Except String β) :
    ((Except.error e : Except String α) >>= f) = Except.error e := rfl

/-- Plumbing: `pure` for `Except` is `Except.ok`. -/
theorem except_pure_eq {α : Type} (a : α) : (pure a : Except String α) = Except.ok a := rfl

/-- Plumbing: `throw` for `Except` is `Except.error`. -/
theorem except_throw_eq {α : Type} (e : String) :
    (throw e : Except String α) = Except.error e := rfl

/-- Plumbing: `exOk` on an error. -/
theorem exOk_error {α : Type} (e : String) :
    exOk (Except.error e : Except String α) = false := rfl

/-- The positional add succeeds (and keeps the time dimension) whenever the
batch time dimension fits in the table. -/
theorem posenc_add_time_of_le {T : ℕ} (h : T ≤ maxLen) :
    posenc_add_time T = Except.ok T := by
  unfold posenc_add_time broadcastDim
  rw [min_eq_left h]
  simp

/-- The positional add fails with a size-mismatch error whenever the batch time
dimension exceeds the table capacity. -/
theorem posenc_add_time_of_gt {T : ℕ} (h : maxLen < T) :
    posenc_add_time T
      = Except.error "The size of tensor a must match the size of tensor b" := by
  have hm : maxLen = 336 := rfl
  unfold posenc_add_time broadcastDim
  rw [min_eq_right (le_of_lt h)]
  rw [if_neg (by omega), if_neg (by rw [hm]; omega), if_neg (by omega)]

/-- Claim C5: whenever the time dimension `T` exceeds the positional table
capacity `maxLen`, the positional add raises an error (the sliced table has
`maxLen ≠ T` columns and cannot broadcast), so the whole forward call fails
rather than silently truncating. -/
theorem claim_C5 (T : ℕ) (h : maxLen < T) :
    (∃ e, posenc_add_time T = Except.error e) ∧
    ∀ B F d_model D diagnosis_size no_flat_features last_linear_size : ℕ,
      exOk (transformer_forward_shape B F T d_model D diagnosis_size
        no_flat_features last_linear_size) = false := by
  refine ⟨⟨_, posenc_add_time_of_gt h⟩, ?_⟩
  intro B F d D dg S lls
  simp only [transformer_forward_shape, posenc_add_time_of_gt h, except_bind_error, exOk_error]

/-- Witness for C5 at `T = 337 = maxLen + 1`. -/
theorem claim_C5_witness :
    maxLen < 337 ∧
    exOk (transformer_forward_shape 2 3 337 8 5 16 4 17) = false :=
  ⟨by decide, (claim_C5 337 (by decide)).2 2 3 8 5 16 4 17⟩

/-- Counterexample to claim C3 as stated: at `B = 2`, `F = 3`, `T = 337 > 5`
(with `d_model = 8`, `D = 5`, `diagnosis_size = 16`, `no_flat_features = 4`,
`last_linear_size = 17`) the forward call does not return a `B × (T - 5)`
prediction shape but fails, because `T` exceeds the positional table capacity
`maxLen = 336`. -/
theorem claim_C3_counterexample :
    transformer_forward_shape 2 3 337 8 5 16 4 17
      = Except.error "The size of tensor a must match the size of tensor b" := by
  rfl

/-- Claim C3, amended: for every batch with `B ≥ 1` and `5 < T ≤ maxLen`
(the positional table capacity), the forward call returns a predictions shape
of exactly `B × (T - 5)`. -/
theorem claim_C3_amended (B F T d_model D diagnosis_size no_flat_features
    last_linear_size : ℕ) (hB : 1 ≤ B) (hT : 5 < T) (hTm : T ≤ maxLen) :
    transformer_forward_shape B F T d_model D diagnosis_size no_flat_features
      last_linear_size = Except.ok (B, T - 5) := by
  have hT5 : (0 : ℤ) < (T : ℤ) - 5 := by omega
  have hB0 : (0 : ℤ) < (B : ℤ) := by omega
  have hd0 : (0 : ℤ) < (B : ℤ) * ((T : ℤ) - 5) := mul_pos hB0 hT5
  have hmax : max ((T : ℤ) - 5) 0 = (T : ℤ) - 5 := max_eq_left (le_of_lt hT5)
  have hr : repeat_interleave_rows B ((T : ℤ) - 5)
      = Except.ok ((B : ℤ) * ((T : ℤ) - 5)) := by
    unfold repeat_interleave_rows
    rw [if_neg (by omega)]
  have htot : (B : ℤ) * (d_model : ℤ) * ((T : ℤ) - 5)
      = ((B : ℤ) * ((T : ℤ) - 5)) * (d_model : ℤ) := by ring
  have hv : view_infer_last ((B : ℤ) * (d_model : ℤ) * (max ((T : ℤ) - 5) 0))
      ((B : ℤ) * ((T : ℤ) - 5)) = Except.ok (d_model : ℤ) := by
    unfold view_infer_last
    rw [hmax, htot, if_pos ⟨hd0, Int.mul_emod_right _ _⟩,
      Int.mul_ediv_cancel_left _ (ne_of_gt hd0)]
  have hvt : view_two (((B : ℤ) * ((T : ℤ) - 5)) * 1) (B : ℤ) ((T : ℤ) - 5)
      = Except.ok ((B : ℤ), (T : ℤ) - 5) := by
    unfold view_two
    rw [if_pos ⟨by omega, by omega, by ring⟩]
  have hwidth : (no_flat_features : ℤ) + (diagnosis_size : ℤ) + (d_model : ℤ)
      = (d_model : ℤ) + (diagnosis_size : ℤ) + (no_flat_features : ℤ) := by ring
  simp only [transformer_forward_shape, posenc_add_time_of_le hTm, except_bind_ok, hr, hv, hvt,
    hwidth, except_pure_eq, and_self, if_true]

/-- Witness for C3 (amended) at the configuration of the claim:
`B = 2`, `F = 3`, `T = 7`, `d_model = 8`, `D = 5` (with `diagnosis_size = 16`,
`no_flat_features = S = 4`, `last_linear_size = 17`), predictions shape
`(2, 2)`. -/
theorem claim_C3_witness :
    (1 : ℕ) ≤ 2 ∧ (5 : ℕ) < 7 ∧ (7 : ℕ) ≤ maxLen ∧
    transformer_forward_shape 2 3 7 8 5 16 4 17 = Except.ok (2, 2) :=
  ⟨by decide, by decide, by decide,
    claim_C3_amended 2 3 7 8 5 16 4 17 (by decide) (by decide) (by decide)⟩

/-- Counterexample to claim C10 as stated: at `T = 5` (with `B = 2`, `F = 3`,
`d_model = 8`, `D = 5`, `diagnosis_size = 16`, `no_flat_features = 4`,
`last_linear_size = 17`) the forward call does not return an empty `B × 0`
predictions tensor: it fails, because `.view(B * (T - 5), -1)` = `.view(0, -1)`
on the 0-element trimmed tensor leaves the inferred dimension ambiguous. -/
theorem claim_C10_counterexample :
    transformer_forward_shape 2 3 5 8 5 16 4 17
      = Except.error "cannot reshape tensor: invalid or ambiguous shape" := by
  rfl

/-- Claim C10, amended: the forward call produces a non-empty prediction only
when `T ≥ 6`; for every `T ≤ 5` it fails — at `T = 5` because the 0-element
reshape `.view(0, -1)` has an ambiguous inferred dimension, and for `T < 5`
because the repeat count `T - 5` passed to `repeat_interleave` is negative. -/
theorem claim_C10_amended (B F T d_model D diagnosis_size no_flat_features
    last_linear_size : ℕ) (h : T ≤ 5) :
    exOk (transformer_forward_shape B F T d_model D diagnosis_size no_flat_features
      last_linear_size) = false := by
  have hpos : posenc_add_time T = Except.ok T :=
    posenc_add_time_of_le (by have : maxLen = 336 := rfl; omega)
  by_cases h5 : T = 5
  · subst h5
    have hr : repeat_interleave_rows B (((5 : ℕ) : ℤ) - 5) = Except.ok 0 := by
      unfold repeat_interleave_rows
      norm_num
    have hv : view_infer_last ((B : ℤ) * (d_model : ℤ) * (max (((5 : ℕ) : ℤ) - 5) 0))
        ((B : ℤ) * (((5 : ℕ) : ℤ) - 5))
        = Except.error "cannot reshape tensor: invalid or ambiguous shape" := by
      unfold view_infer_last
      norm_num
    simp only [transformer_forward_shape, hpos, except_bind_ok, hr, hv, except_bind_error,
      exOk_error]
  · have hr : repeat_interleave_rows B ((T : ℤ) - 5)
        = Except.error "repeats can not be negative" := by
      unfold repeat_interleave_rows
      rw [if_pos (by omega)]
    simp only [transformer_forward_shape, hpos, except_bind_ok, hr, except_bind_error, exOk_error]

/-- Witness for C10 (amended) at `T = 5`, `B = 3` (a different batch size than
the counterexample instance). -/
theorem claim_C10_witness :
    (5 : ℕ) ≤ 5 ∧ exOk (transformer_forward_shape 3 3 5 8 5 16 4 17) = false :=
  ⟨le_refl 5, claim_C10_amended 3 3 5 8 5 16 4 17 (le_refl 5)⟩

/-- Counterexample to claim C9 as stated: `d_model = 1` is odd, yet
constructing the `PositionalEncoding` succeeds — the cos right-hand side has
width `len(range(0, 1, 2)) = 1` and its singleton dimension broadcasts into
the empty (width-0) odd-channel slice `pe[:, 1::2]`. -/
theorem claim_C9_counterexample :
    (1 : ℕ) % 2 = 1 ∧ posenc_init_ok 1 = true := by
  decide

/-- Claim C9, amended: for every odd `d_model ≥ 3`, constructing the
`PositionalEncoding` fails — the cos assignment targets the `d_model / 2` odd
channels but its right-hand side has
`len(range(0, d_model, 2)) = (d_model + 1) / 2 ≥ 2` columns, which neither
matches nor broadcasts; at `d_model = 1` the width-1 right-hand side
broadcasts into the empty odd-channel slice and construction succeeds. -/
theorem claim_C9_amended (d_model : ℕ) (hodd : d_model % 2 = 1) :
    (3 ≤ d_model → posenc_init_ok d_model = false) ∧ posenc_init_ok 1 = true := by
  constructor
  · intro h3
    have ha : slice_count 0 2 d_model = (d_model + 1) / 2 := by
      unfold slice_count
      rw [if_neg (by omega)]
      omega
    have hb : slice_count 1 2 d_model = d_model / 2 := by
      unfold slice_count
      rw [if_neg (by omega)]
      omega
    have h1 : d_model / 2 ≠ (d_model + 1) / 2 := by omega
    have h2 : (d_model + 1) / 2 ≠ 1 := by omega
    simp [posenc_init_ok, setitem_bcast_ok, ha, hb, h1, h2]
  · decide

/-- Witness for C9 (amended) at `d_model = 7`. -/
theorem claim_C9_witness :
    (7 : ℕ) % 2 = 1 ∧ (3 : ℕ) ≤ 7 ∧ posenc_init_ok 7 = false :=
  ⟨by decide, by decide, (claim_C9_amended 7 (by decide)).1 (by decide)⟩

/-- Helper: a sum over `range T` of values gated by the mask `t < L` with
`L ≤ T`, all of whose unmasked values are `e`, equals `L * e`. -/
theorem masked_sum_const {T L : ℕ} (hLT : L ≤ T) (v : ℕ → ℚ) (e : ℚ)
    (hv : ∀ t, t < L → v t = e) :
    (∑ t ∈ Finset.range T, if decide (t < L) = true then v t else 0) = (L : ℚ) * e := by
  have hfil : (Finset.range T).filter (fun t => t < L) = Finset.range L := by
    ext t
    simp only [Finset.mem_filter, Finset.mem_range]
    omega
  calc (∑ t ∈ Finset.range T, if decide (t < L) = true then v t else 0)
      = ∑ t ∈ Finset.range T, if t < L then v t else 0 := by
        apply Finset.sum_congr rfl
        intro t _
        simp
    _ = ∑ t ∈ (Finset.range T).filter (fun t => t < L), v t := (Finset.sum_filter _ _).symm
    _ = ∑ t ∈ Finset.range L, v t := by rw [hfil]
    _ = ∑ _t ∈ Finset.range L, e := Finset.sum_congr rfl
        (fun t ht => hv t (Finset.mem_range.mp ht))
    _ = (L : ℚ) * e := by
        rw [Finset.sum_const, Finset.card_range, nsmul_eq_mul]

/-- Claim C4: with `sum_losses = false`, for the batch of one sequence of
valid length 2 and one of valid length 10 (mask true exactly on the valid
timesteps) in which every valid element has the same per-element error `e`,
the loss is exactly `e`, independent of the two lengths: each sequence's
masked errors are averaged over its own valid length and the per-sequence
means are then averaged over the batch. -/
theorem claim_C4 (err : ℚ → ℚ → ℚ) (y_hat y : ℕ → ℕ → ℚ) (e : ℚ)
    (h : ∀ b t, mask_two_ten b t = true → err (y_hat b t) (y b t) = e) :
    masked_loss err y_hat y mask_two_ten lens_two_ten 2 10 false = e := by
  have h0 : (∑ t ∈ Finset.range 10,
      if mask_two_ten 0 t = true then err (y_hat 0 t) (y 0 t) else 0)
      = ((2 : ℕ) : ℚ) * e := by
    have := masked_sum_const (T := 10) (L := 2) (by norm_num)
      (fun t => err (y_hat 0 t) (y 0 t)) e
      (fun t ht => h 0 t (by simp [mask_two_ten, lens_two_ten]; omega))
    simpa [mask_two_ten, lens_two_ten] using this
  have h1 : (∑ t ∈ Finset.range 10,
      if mask_two_ten 1 t = true then err (y_hat 1 t) (y 1 t) else 0)
      = ((10 : ℕ) : ℚ) * e := by
    have := masked_sum_const (T := 10) (L := 10) (by norm_num)
      (fun t => err (y_hat 1 t) (y 1 t)) e
      (fun t ht => h 1 t (by simp [mask_two_ten, lens_two_ten]; omega))
    simpa [mask_two_ten, lens_two_ten] using this
  rw [masked_loss]
  rw [if_neg (by simp)]
  rw [Finset.sum_range_succ, Finset.sum_range_succ, Finset.sum_range_zero]
  rw [h0, h1]
  have hl0 : lens_two_ten 0 = 2 := rfl
  have hl1 : lens_two_ten 1 = 10 := rfl
  rw [hl0, hl1]
  push_cast
  ring

/-- Witness for C4: constant per-element error 7 (constant error metric),
lengths 2 and 10, `sum_losses = false` loss is exactly 7. -/
theorem claim_C4_witness :
    masked_loss (fun _ _ => (7 : ℚ)) (fun _ _ => 0) (fun _ _ => 0)
      mask_two_ten lens_two_ten 2 10 false = 7 :=
  claim_C4 (fun _ _ => 7) (fun _ _ => 0) (fun _ _ => 0) 7 (fun _ _ _ => rfl)

/-- Claim C6: the positional table holds `sin(pos * div_term i)` in every even
channel `2i` and `cos` of the same argument in the adjacent odd channel
`2i + 1`, where `div_term i = exp((2i) * (-log 10000 / d_model))`, i.e.
`pos / 10000^(2i/d_model)` for the backend's exp/log; the add operation
returns, at every batch row `b`, channel `c` and time `t < T` (for any
`T ≤ maxLen`), the input plus the table entry at `(t, c)` — the same entry for
every `b` (the broadcast over the batch) — and, the table being fixed and
parameter-free, repeated calls on the same input return identical results. -/
theorem claim_C6 (sinf cosf expf : ℚ → ℚ) (L : ℚ) (d_model pos i : ℕ) :
    (pos < maxLen → 2 * i < d_model →
      pe_entry sinf cosf expf L d_model pos (2 * i)
        = sinf ((pos : ℚ) * div_term expf L d_model i)) ∧
    (pos < maxLen → 2 * i + 1 < d_model →
      pe_entry sinf cosf expf L d_model pos (2 * i + 1)
        = cosf ((pos : ℚ) * div_term expf L d_model i)) ∧
    (∀ (X : ℕ → ℕ → ℕ → ℚ) (b c t T : ℕ), t < T → T ≤ maxLen →
      posenc_forward sinf cosf expf L d_model X b c t
        = X b c t + pe_entry sinf cosf expf L d_model t c) ∧
    (∀ (X : ℕ → ℕ → ℕ → ℚ) (b c t : ℕ),
      posenc_forward sinf cosf expf L d_model X b c t
        = posenc_forward sinf cosf expf L d_model X b c t) := by
  refine ⟨?_, ?_, ?_, ?_⟩
  · intro _ _
    unfold pe_entry
    rw [if_pos (by omega)]
    have hdiv : 2 * i / 2 = i := by omega
    rw [hdiv]
  · intro _ _
    unfold pe_entry
    rw [if_neg (by omega)]
    have hdiv : (2 * i + 1) / 2 = i := by omega
    rw [hdiv]
  · intro X b c t T _ _
    rfl
  · intro X b c t
    rfl

/-- Witness for C6 at `d_model = 8`, `pos = 0`, `i = 0`, with distinct
stand-ins for the backend sin, cos and exp. -/
theorem claim_C6_witness :
    (0 : ℕ) < maxLen ∧ 2 * 0 < 8 ∧ 2 * 0 + 1 < 8 ∧
    pe_entry (fun x => x + 1) (fun x => x + 2) (fun x => x + 3) 9 8 0 (2 * 0)
      = ((0 : ℕ) : ℚ) * div_term (fun x => x + 3) 9 8 0 + 1 ∧
    pe_entry (fun x => x + 1) (fun x => x + 2) (fun x => x + 3) 9 8 0 (2 * 0 + 1)
      = ((0 : ℕ) : ℚ) * div_term (fun x => x + 3) 9 8 0 + 2 :=
  ⟨by decide, by decide, by decide,
    (claim_C6 (fun x => x + 1) (fun x => x + 2) (fun x => x + 3) 9 8 0 0).1
      (by decide) (by decide),
    (claim_C6 (fun x => x + 1) (fun x => x + 2) (fun x => x + 3) 9 8 0 0).2.1
      (by decide) (by decide)⟩

/-- Claim C7: `Transformer.loss` with a `loss_type` outside `{mse, msle}`
fails with an error (the local `loss` is never assigned, so the `return`
raises) rather than returning a value, and for `'msle'` and `'mse'` it
returns the value computed by the corresponding metric module. -/
theorem claim_C7 (msle_val mse_val : ℚ) (loss_type : String) :
    (loss_type ≠ "msle" → loss_type ≠ "mse" →
      transformer_loss msle_val mse_val loss_type
        = Except.error "local variable referenced before assignment") ∧
    transformer_loss msle_val mse_val "msle" = Except.ok msle_val ∧
    transformer_loss msle_val mse_val "mse" = Except.ok mse_val := by
  refine ⟨?_, by simp [transformer_loss], by simp [transformer_loss]⟩
  intro h1 h2
  simp [transformer_loss, h1, h2]

/-- Witness for C7 at `loss_type = "huber"`: the dispatch fails; at
`"msle"` it returns the MSLE value. -/
theorem claim_C7_witness :
    transformer_loss 3 4 "huber"
      = Except.error "local variable referenced before assignment" ∧
    transformer_loss 3 4 "msle" = Except.ok 3 :=
  ⟨(claim_C7 3 4 "huber").1 (by decide) (by decide), (claim_C7 3 4 "huber").2.1⟩

/-- Claim C8: the batchnorm selector is a closed enum-dispatch:
`'mybatchnorm'` and `'low_momentum'` select the custom batch norm at both
fusion-head stages (momentum 1/100 only for `'low_momentum'`, else 1/10),
`'default'` selects the standard batch norm at both stages, `'pointonly'`
normalizes only the point stage, and every unrecognized string silently
resolves both stages to the pass-through `EmptyModule` with no error. -/
theorem claim_C8 (batchnorm : String) :
    (batchnorm ≠ "mybatchnorm" → batchnorm ≠ "low_momentum" → batchnorm ≠ "default" →
      batchnorm ≠ "pointonly" →
      bn_diagnosis_encoder batchnorm = BNChoice.EmptyModule ∧
      bn_point_last batchnorm = BNChoice.EmptyModule) ∧
    bn_diagnosis_encoder "mybatchnorm" = BNChoice.MyBatchNorm1d (1 / 10) ∧
    bn_point_last "mybatchnorm" = BNChoice.MyBatchNorm1d (1 / 10) ∧
    bn_diagnosis_encoder "low_momentum" = BNChoice.MyBatchNorm1d (1 / 100) ∧
    bn_point_last "low_momentum" = BNChoice.MyBatchNorm1d (1 / 100) ∧
    bn_diagnosis_encoder "default" = BNChoice.BatchNorm1d ∧
    bn_point_last "default" = BNChoice.BatchNorm1d ∧
    bn_diagnosis_encoder "pointonly" = BNChoice.EmptyModule ∧
    bn_point_last "pointonly" = BNChoice.MyBatchNorm1d (1 / 10) := by
  constructor
  · intro h1 h2 h3 h4
    constructor
    · unfold bn_diagnosis_encoder
      rw [if_neg (by simp [h1, h2]), if_neg h3]
    · unfold bn_point_last
      rw [if_neg (by simp [h1, h2, h4]), if_neg h3]
  · exact ⟨rfl, rfl, rfl, rfl, rfl, rfl, rfl, rfl⟩

/-- Witness for C8 at the unrecognized selector `"batchnorm_off"`: both
stages resolve to the pass-through module. -/
theorem claim_C8_witness :
    bn_diagnosis_encoder "batchnorm_off" = BNChoice.EmptyModule ∧
    bn_point_last "batchnorm_off" = BNChoice.EmptyModule :=
  (claim_C8 "batchnorm_off").1 (by decide) (by decide) (by decide) (by decide)
